import Mathlib

/-!
Shallow embedding of the Noven Pro warehouse-delivery backend
(`src/main.py` and `src/schemas.py`).

The MongoDB collections `delivery` and `deliveryitem` are modelled as
association lists keyed by the document's `_id` string.  Each FastAPI
endpoint becomes a function that takes the current store `State` (plus a
`now : Nat` standing for `datetime.now(timezone.utc)` and, for creation
endpoints, the fresh ObjectId produced by `create_document`) and returns
the new `State` together with the endpoint's response: `Except HTTPError`
models `raise HTTPException`, and the success payload mirrors the
`find_one` + `serialize` the handler performs before returning.

Statuses are plain strings, as in the Python code, so that the legacy
`"RECEIVED"` delivery status — absent from the `DeliveryStatus` enum but
possibly present in storage — is representable.
-/

deriving instance DecidableEq for Except

namespace Noven

/-- Model of `schemas.Location`. -/
structure Location where
  rack : String
  slot : String
  zone : Option String
  level : Option String
deriving Repr, DecidableEq

/-- Model of `schemas.Delivery` as persisted (with the store-layer timestamps). -/
structure Delivery where
  supplier : Option String
  reference : Option String
  status : String
  expectedDate : Option Nat
  receivedQty : Int
  meta : List (String × String)
  created_at : Nat
  updated_at : Nat
deriving Repr, DecidableEq

/-- Model of `schemas.DeliveryItem` as persisted (with the store-layer timestamps). -/
structure DeliveryItem where
  delivery_id : String
  product_id : Option String
  variant_id : Option String
  expectedQty : Int
  receivedQty : Int
  status : String
  notes : Option String
  location : Option Location
  created_at : Nat
  updated_at : Nat
deriving Repr, DecidableEq

/-- Model of `schemas.DeliveryCreateRequest`. -/
structure DeliveryCreateRequest where
  supplier : Option String
  reference : Option String
  expectedDate : Option Nat
  meta : List (String × String)
deriving Repr, DecidableEq

/-- Model of `schemas.DeliveryItemCreateRequest`. -/
structure DeliveryItemCreateRequest where
  product_id : Option String
  variant_id : Option String
  expectedQty : Int
  notes : Option String
deriving Repr, DecidableEq

/-- Model of `main.ReceiveItemInput`: one `{itemId, qty}` entry of a receive batch. -/
structure ReceiveItemInput where
  itemId : String
  qty : Int
deriving Repr, DecidableEq

/-- Model of `main.ApprovePayload`. -/
structure ApprovePayload where
  notes : Option String
deriving Repr, DecidableEq

/-- Model of `main.StorePayload`. -/
structure StorePayload where
  rack : String
  slot : String
  zone : Option String
  level : Option String
deriving Repr, DecidableEq

/-- Model of `fastapi.HTTPException(status_code, detail)`. -/
structure HTTPError where
  status_code : Nat
  detail : String
deriving Repr, DecidableEq

/-- The two MongoDB collections the delivery endpoints touch, keyed by `_id`. -/
structure State where
  deliveries : List (String × Delivery)
  items : List (String × DeliveryItem)
deriving Repr, DecidableEq

/-- Mongo `collection.find_one({"_id": id})`: first document with the given id. -/
def findDoc {α : Type} (store : List (String × α)) (id : String) : Option α :=
  (store.find? (fun p => p.1 == id)).map (fun p => p.2)

/-- Mongo `collection.update_one(query, {"$set": ...})`: rewrite the first document
matching the predicate, leave the rest untouched (Mongo updates at most one). -/
def updateFirst {α : Type} (p : String × α → Bool) (f : α → α) :
    List (String × α) → List (String × α)
  | [] => []
  | d :: rest => if p d then (d.1, f d.2) :: rest else d :: updateFirst p f rest

/-- Mongo `deliveryitem.find_one({"_id": itemId, "delivery_id": deliveryId})`. -/
def findItem (items : List (String × DeliveryItem)) (itemId deliveryId : String) :
    Option DeliveryItem :=
  ((items.find? (fun p => p.1 == itemId && p.2.delivery_id == deliveryId)).map
    (fun p => p.2))

/-- The `$match delivery_id / $group $sum receivedQty` aggregation of
`receive_items` (lines 184-190 of `main.py`); an empty match yields 0. -/
def itemSum (items : List (String × DeliveryItem)) (deliveryId : String) : Int :=
  (items.filter (fun p => p.2.delivery_id == deliveryId)).foldl
    (fun acc p => acc + p.2.receivedQty) 0

/-- Handler `POST /deliveries` (`create_delivery`): builds the document with
`status="PENDING"` and `receivedQty=0`, inserts it, then returns
`find_one` on the new id. -/
def create_delivery (payload : DeliveryCreateRequest) (newId : String) (now : Nat)
    (s : State) : State × Option Delivery :=
  let d : Delivery :=
    { supplier := payload.supplier
      reference := payload.reference
      status := "PENDING"
      receivedQty := 0
      expectedDate := payload.expectedDate
      meta := payload.meta
      created_at := now
      updated_at := now }
  let deliveries' := s.deliveries ++ [(newId, d)]
  ({ s with deliveries := deliveries' }, findDoc deliveries' newId)

/-- The status filter `list_deliveries` builds (lines 106-112 of `main.py`):
`$in status_in` when the query parameter is truthy (Python treats both `None`
and `[]` as falsy), always conjoined with `$nin ["RECEIVED"]`. -/
def deliveryStatusFilter (status_in : Option (List String)) (st : String) : Bool :=
  (match status_in with
   | some l => if l.isEmpty then true else l.contains st
   | none => true) && !(st == "RECEIVED")

/-- Insert a delivery into a list sorted by descending `created_at`. -/
def insertByCreatedDesc (x : String × Delivery) :
    List (String × Delivery) → List (String × Delivery)
  | [] => [x]
  | y :: ys =>
    if y.2.created_at ≤ x.2.created_at then x :: y :: ys
    else y :: insertByCreatedDesc x ys

/-- Mongo `.sort("created_at", -1)`: sort by descending `created_at`. -/
def sortByCreatedDesc : List (String × Delivery) → List (String × Delivery)
  | [] => []
  | x :: xs => insertByCreatedDesc x (sortByCreatedDesc xs)

/-- Handler `GET /deliveries` (`list_deliveries`): filter, sort newest-first,
cap at `limit`. -/
def list_deliveries (status_in : Option (List String)) (limit : Nat) (s : State) :
    List (String × Delivery) :=
  (sortByCreatedDesc
      (s.deliveries.filter (fun p => deliveryStatusFilter status_in p.2.status))).take
    limit

/-- Handler `POST /deliveries/{delivery_id}/items` (`add_delivery_item`): 404 if the
delivery does not exist, else insert the item with `receivedQty=0`,
`status="PENDING"`, `location=None`, and return `find_one` on the new id. -/
def add_delivery_item (deliveryId : String) (payload : DeliveryItemCreateRequest)
    (newId : String) (now : Nat) (s : State) :
    State × Except HTTPError (Option DeliveryItem) :=
  match findDoc s.deliveries deliveryId with
  | none => (s, Except.error ⟨404, "Delivery not found"⟩)
  | some _ =>
    let it : DeliveryItem :=
      { delivery_id := deliveryId
        product_id := payload.product_id
        variant_id := payload.variant_id
        expectedQty := payload.expectedQty
        receivedQty := 0
        status := "PENDING"
        notes := payload.notes
        location := none
        created_at := now
        updated_at := now }
    let items' := s.items ++ [(newId, it)]
    ({ s with items := items' }, Except.ok (findDoc items' newId))

/-- One iteration of the `for it in payload.items` loop of `receive_items`
(lines 167-181 of `main.py`): look the item up by id and delivery, reject a
missing item or a negative qty, otherwise `$set` the absolute values computed
from the found document. -/
def applyEntry (deliveryId : String) (now : Nat)
    (items : List (String × DeliveryItem)) (e : ReceiveItemInput) :
    List (String × DeliveryItem) × Option HTTPError :=
  match findItem items e.itemId deliveryId with
  | none =>
    (items, some ⟨400, "Item " ++ e.itemId ++ " not found for this delivery"⟩)
  | some item =>
    if e.qty < 0 then (items, some ⟨400, "qty must be >= 0"⟩)
    else
      let newReceived := item.receivedQty + e.qty
      let st := if 0 < e.qty then "RECEIVED" else item.status
      (updateFirst (fun p => p.1 == e.itemId)
        (fun doc => { doc with receivedQty := newReceived, status := st, updated_at := now })
        items, none)

/-- The `for it in payload.items` loop: entries applied left to right;
a raised `HTTPException` aborts the loop, keeping the updates already made. -/
def receiveLoop (deliveryId : String) (now : Nat) :
    List (String × DeliveryItem) → List ReceiveItemInput →
    List (String × DeliveryItem) × Option HTTPError
  | items, [] => (items, none)
  | items, e :: rest =>
    match applyEntry deliveryId now items e with
    | (items', none) => receiveLoop deliveryId now items' rest
    | (items', some err) => (items', some err)

/-- Handler `POST /deliveries/{delivery_id}/receive` (`receive_items`): 404 if the
delivery does not exist; run the per-entry loop (aborting mid-way leaves the
earlier item updates in place and skips the delivery update entirely); on
success re-aggregate the delivery's `receivedQty` as the sum over all its
items and return the freshly fetched delivery. -/
def receive_items (deliveryId : String) (now : Nat)
    (entries : List ReceiveItemInput) (s : State) :
    State × Except HTTPError (Option Delivery) :=
  match findDoc s.deliveries deliveryId with
  | none => (s, Except.error ⟨404, "Delivery not found"⟩)
  | some _ =>
    match receiveLoop deliveryId now s.items entries with
    | (items', some err) => ({ s with items := items' }, Except.error err)
    | (items', none) =>
      let newTotal := itemSum items' deliveryId
      let deliveries' := updateFirst (fun p => p.1 == deliveryId)
        (fun d => { d with receivedQty := newTotal, updated_at := now })
        s.deliveries
      ({ deliveries := deliveries', items := items' },
        Except.ok (findDoc deliveries' deliveryId))

/-- Handler `POST /deliveries/{delivery_id}/send-to-quality` (`send_to_quality`):
`update_one` setting the status unconditionally; 404 iff nothing matched. -/
def send_to_quality (deliveryId : String) (now : Nat) (s : State) :
    State × Except HTTPError (Option Delivery) :=
  let deliveries' := updateFirst (fun p => p.1 == deliveryId)
    (fun d => { d with status := "IN_QUALITY_CHECK", updated_at := now })
    s.deliveries
  let s' : State := { s with deliveries := deliveries' }
  match findDoc s.deliveries deliveryId with
  | none => (s', Except.error ⟨404, "Delivery not found"⟩)
  | some _ => (s', Except.ok (findDoc deliveries' deliveryId))

/-- Handler `POST /deliveries/{delivery_id}/complete` (`complete_delivery`). -/
def complete_delivery (deliveryId : String) (now : Nat) (s : State) :
    State × Except HTTPError (Option Delivery) :=
  let deliveries' := updateFirst (fun p => p.1 == deliveryId)
    (fun d => { d with status := "COMPLETED", updated_at := now })
    s.deliveries
  let s' : State := { s with deliveries := deliveries' }
  match findDoc s.deliveries deliveryId with
  | none => (s', Except.error ⟨404, "Delivery not found"⟩)
  | some _ => (s', Except.ok (findDoc deliveries' deliveryId))

/-- Handler `POST /delivery-items/{item_id}/approve` (`approve_item`): `$set`
`status="APPROVED"` and `notes=payload.notes` (overwriting whatever notes the
item had, with `None` when the caller omitted them); 404 iff nothing matched. -/
def approve_item (itemId : String) (payload : ApprovePayload) (now : Nat)
    (s : State) : State × Except HTTPError (Option DeliveryItem) :=
  let items' := updateFirst (fun p => p.1 == itemId)
    (fun it => { it with status := "APPROVED", notes := payload.notes, updated_at := now })
    s.items
  let s' : State := { s with items := items' }
  match findDoc s.items itemId with
  | none => (s', Except.error ⟨404, "Item not found"⟩)
  | some _ => (s', Except.ok (findDoc items' itemId))

/-- Handler `POST /delivery-items/{item_id}/store` (`store_item`): `$set`
`status="STORED"` and the location built from the payload; 404 iff nothing
matched. -/
def store_item (itemId : String) (payload : StorePayload) (now : Nat)
    (s : State) : State × Except HTTPError (Option DeliveryItem) :=
  let loc : Location :=
    { rack := payload.rack, slot := payload.slot
      zone := payload.zone, level := payload.level }
  let items' := updateFirst (fun p => p.1 == itemId)
    (fun it => { it with status := "STORED", location := some loc, updated_at := now })
    s.items
  let s' : State := { s with items := items' }
  match findDoc s.items itemId with
  | none => (s', Except.error ⟨404, "Item not found"⟩)
  | some _ => (s', Except.ok (findDoc items' itemId))

/-! ### Helper lemmas about the store primitives -/

/-- Updating via `updateFirst` does not change the keys of the store. -/
theorem updateFirst_keys {α : Type} (p : String × α → Bool) (f : α → α) :
    ∀ store : List (String × α),
      (updateFirst p f store).map Prod.fst = store.map Prod.fst := by
  intro store
  induction store with
  | nil => rfl
  | cons d rest ih =>
    by_cases h : p d = true
    · simp [updateFirst, h]
    · simp [updateFirst, h, ih]

/-- Fetching a document after `update_one` keyed by the same id returns the
updated document. -/
theorem findDoc_updateFirst_key {α : Type} (f : α → α) (id : String) :
    ∀ store : List (String × α),
      findDoc (updateFirst (fun p => p.1 == id) f store) id =
        (findDoc store id).map f := by
  intro store
  induction store with
  | nil => rfl
  | cons d rest ih =>
    by_cases h : d.1 = id
    · simp [updateFirst, findDoc, List.find?, h]
    · have hb : (d.1 == id) = false := by simp [h]
      simp only [updateFirst, hb, if_false]
      simp only [findDoc, List.find?, hb] at ih ⊢
      exact ih

/-- A successful `findItem` means the item's id occurs among the keys. -/
theorem findItem_key_mem (items : List (String × DeliveryItem))
    (itemId deliveryId : String) (it : DeliveryItem)
    (h : findItem items itemId deliveryId = some it) :
    itemId ∈ items.map Prod.fst := by
  induction items with
  | nil => simp [findItem] at h
  | cons d rest ih =>
    by_cases hk : (d.1 == itemId && d.2.delivery_id == deliveryId) = true
    · have : d.1 = itemId := by
        have := (Bool.and_eq_true _ _).mp hk
        exact eq_of_beq this.1
      simp [this]
    · have hb : (d.1 == itemId && d.2.delivery_id == deliveryId) = false := by
        simp only [Bool.not_eq_true] at hk; exact hk
      simp only [findItem, List.find?, hb] at h
      exact List.mem_cons_of_mem _ (ih h)

/-- In a store with no duplicate ids, `update_one` keyed by an item's `_id`
rewrites exactly the document that `find_one({"_id": itemId,
"delivery_id": deliveryId})` returned, provided the rewrite keeps the
item's `delivery_id`. -/
theorem findItem_updateFirst (f : DeliveryItem → DeliveryItem)
    (hf : ∀ x, (f x).delivery_id = x.delivery_id)
    (itemId deliveryId : String) :
    ∀ items : List (String × DeliveryItem),
      (items.map Prod.fst).Nodup →
      ∀ it, findItem items itemId deliveryId = some it →
      findItem (updateFirst (fun p => p.1 == itemId) f items) itemId deliveryId =
        some (f it) := by
  intro items
  induction items with
  | nil => intro _ it h; simp [findItem] at h
  | cons d rest ih =>
    intro hnd it hfind
    have hnd' := (List.nodup_cons.mp hnd)
    by_cases hk : d.1 = itemId
    · by_cases hdel : d.2.delivery_id = deliveryId
      · have hpred : (d.1 == itemId && d.2.delivery_id == deliveryId) = true := by
          simp [hk, hdel]
        have hit : it = d.2 := by
          simp only [findItem, List.find?, hpred, Option.map_some] at hfind
          exact (Option.some.injEq _ _).mp hfind.symm
        simp [updateFirst, findItem, List.find?, hk, hdel, hf, hit]
      · -- the head has the right id but the wrong delivery; `findItem`
        -- skipped it, so a match further on would duplicate the id
        have hpred : (d.1 == itemId && d.2.delivery_id == deliveryId) = false := by
          simp [hk, hdel]
        simp only [findItem, List.find?, hpred] at hfind
        exfalso
        exact hnd'.1 (by
          rw [hk]
          exact findItem_key_mem rest itemId deliveryId it hfind)
    · have hb : (d.1 == itemId) = false := by simp [hk]
      have hpred : (d.1 == itemId && d.2.delivery_id == deliveryId) = false := by
        simp [hk]
      simp only [findItem, List.find?, hpred] at hfind
      simp only [updateFirst, hb, if_false, findItem, List.find?, hpred]
      exact ih hnd'.2 it hfind

/-- Inserting a document under a fresh id makes it retrievable. -/
theorem findDoc_append_fresh {α : Type} (store : List (String × α))
    (id : String) (v : α) (h : findDoc store id = none) :
    findDoc (store ++ [(id, v)]) id = some v := by
  induction store with
  | nil => simp [findDoc, List.find?]
  | cons d rest ih =>
    by_cases hk : (d.1 == id) = true
    · simp [findDoc, List.find?, hk] at h
    · have hb : (d.1 == id) = false := by
        simp only [Bool.not_eq_true] at hk; exact hk
      simp only [findDoc, List.find?, hb] at h ⊢
      exact ih h

/-- The receive loop processes a batch left to right: a fully successful
prefix hands its updated item store to the remainder of the batch. -/
theorem receiveLoop_append (deliveryId : String) (now : Nat)
    (pre l : List ReceiveItemInput) :
    ∀ items items', receiveLoop deliveryId now items pre = (items', none) →
      receiveLoop deliveryId now items (pre ++ l) =
        receiveLoop deliveryId now items' l := by
  induction pre with
  | nil =>
    intro items items' h
    simp only [receiveLoop] at h
    cases h
    simp
  | cons e rest ih =>
    intro items items' h
    simp only [receiveLoop, List.cons_append] at h ⊢
    cases happ : applyEntry deliveryId now items e with
    | mk items₁ oerr =>
      cases oerr with
      | none =>
        rw [happ] at h
        exact ih items₁ items' h
      | some err =>
        rw [happ] at h
        simp at h

/-- Successful path of one loop iteration of `receive_items`: with the item
found and a non-negative qty, the entry succeeds and the stored item now
carries the incremented quantity, the recomputed status and the new
timestamp. -/
theorem applyEntry_success (deliveryId : String) (now : Nat)
    (items : List (String × DeliveryItem)) (e : ReceiveItemInput)
    (item : DeliveryItem)
    (hnd : (items.map Prod.fst).Nodup)
    (hfind : findItem items e.itemId deliveryId = some item)
    (hqty : 0 ≤ e.qty) :
    (applyEntry deliveryId now items e).2 = none ∧
    findItem (applyEntry deliveryId now items e).1 e.itemId deliveryId =
      some { item with
             receivedQty := item.receivedQty + e.qty
             status := if 0 < e.qty then "RECEIVED" else item.status
             updated_at := now } := by
  have hneg : ¬ e.qty < 0 := not_lt.mpr hqty
  simp only [applyEntry, hfind, if_neg hneg]
  refine ⟨trivial, ?_⟩
  exact findItem_updateFirst
    (fun doc => { doc with
      receivedQty := item.receivedQty + e.qty
      status := if 0 < e.qty then "RECEIVED" else item.status
      updated_at := now })
    (fun x => rfl) e.itemId deliveryId items hnd item hfind

/-- Membership in an insertion step of the `created_at` sort. -/
theorem mem_insertByCreatedDesc (x y : String × Delivery) :
    ∀ l : List (String × Delivery), y ∈ insertByCreatedDesc x l → y = x ∨ y ∈ l := by
  intro l
  induction l with
  | nil => intro h; simpa [insertByCreatedDesc] using h
  | cons z zs ih =>
    intro h
    by_cases hc : z.2.created_at ≤ x.2.created_at
    · simp only [insertByCreatedDesc, if_pos hc, List.mem_cons] at h
      rcases h with h | h | h
      · exact Or.inl h
      · exact Or.inr (by simp [h])
      · exact Or.inr (List.mem_cons_of_mem z h)
    · simp only [insertByCreatedDesc, if_neg hc, List.mem_cons] at h
      rcases h with h | h
      · exact Or.inr (by simp [h])
      · rcases ih h with h' | h'
        · exact Or.inl h'
        · exact Or.inr (List.mem_cons_of_mem z h')

/-- The `created_at` sort only permutes the list: no new members. -/
theorem mem_sortByCreatedDesc (y : String × Delivery) :
    ∀ l : List (String × Delivery), y ∈ sortByCreatedDesc l → y ∈ l := by
  intro l
  induction l with
  | nil => intro h; simp [sortByCreatedDesc] at h
  | cons z zs ih =>
    intro h
    rcases mem_insertByCreatedDesc z y (sortByCreatedDesc zs) h with h' | h'
    · simp [h']
    · exact List.mem_cons_of_mem z (ih h')

/-! ### Concrete sample documents used by the witness theorems -/

/-- A freshly created delivery, as `create_delivery` would store it. -/
def wDelivery : Delivery :=
  { supplier := some "Acme", reference := none, status := "PENDING"
    expectedDate := none, receivedQty := 0, meta := [], created_at := 0, updated_at := 0 }

/-- A pending item of delivery `d1` expecting 10 units. -/
def wItem : DeliveryItem :=
  { delivery_id := "d1", product_id := none, variant_id := none
    expectedQty := 10, receivedQty := 0, status := "PENDING"
    notes := none, location := none, created_at := 0, updated_at := 0 }

/-- An already-approved item of `d1` with 2 units received and existing notes. -/
def wApproved : DeliveryItem :=
  { delivery_id := "d1", product_id := none, variant_id := none
    expectedQty := 10, receivedQty := 2, status := "APPROVED"
    notes := some "looks fine", location := none, created_at := 0, updated_at := 0 }

/-- One delivery `d1` with one pending item `i1`. -/
def wState : State := { deliveries := [("d1", wDelivery)], items := [("i1", wItem)] }

/-- One delivery `d1` with one approved, partly received item `i1`. -/
def wStateApproved : State :=
  { deliveries := [("d1", wDelivery)], items := [("i1", wApproved)] }

/-! ### Claim theorems -/

/-- C1: after any successful `receive(D, batch)`, the delivery returned (and
the one stored) has `receivedQty` equal to the sum of `receivedQty` over all
`DeliveryItem`s whose `delivery_id` references it, computed by full
re-aggregation over the post-state item set: the pre-state value of
`Delivery.receivedQty` is arbitrary and plays no role, and no client-supplied
aggregate enters the computation. -/
theorem receive_reaggregates_delivery_total (s : State) (did : String)
    (now : Nat) (entries : List ReceiveItemInput) (res : Option Delivery)
    (hok : (receive_items did now entries s).2 = Except.ok res) :
    ∃ d : Delivery, res = some d ∧
      d.receivedQty = itemSum (receive_items did now entries s).1.items did ∧
      findDoc (receive_items did now entries s).1.deliveries did = some d := by
  cases hfd : findDoc s.deliveries did with
  | none => simp [receive_items, hfd] at hok
  | some d0 =>
    cases hlp : receiveLoop did now s.items entries with
    | mk items' oerr =>
      cases oerr with
      | some err => simp [receive_items, hfd, hlp] at hok
      | none =>
        have hupd := findDoc_updateFirst_key
          (fun d => { d with receivedQty := itemSum items' did, updated_at := now })
          did s.deliveries
        rw [hfd] at hupd
        simp only [receive_items, hfd, hlp] at hok ⊢
        refine ⟨{ d0 with receivedQty := itemSum items' did, updated_at := now },
          ?_, rfl, hupd⟩
        have h := Except.ok.inj hok
        rw [← h, hupd]
        rfl

/-- C1 witness: receiving 5 of item `i1` on the sample store yields a
delivery whose aggregate equals the item sum. -/
theorem receive_reaggregates_delivery_total_witness :
    ∃ d : Delivery,
      some { wDelivery with receivedQty := 5, updated_at := 3 } = some d ∧
      d.receivedQty =
        itemSum (receive_items "d1" 3 [⟨"i1", 5⟩] wState).1.items "d1" ∧
      findDoc (receive_items "d1" 3 [⟨"i1", 5⟩] wState).1.deliveries "d1" =
        some d :=
  receive_reaggregates_delivery_total wState "d1" 3 [⟨"i1", 5⟩]
    (some { wDelivery with receivedQty := 5, updated_at := 3 }) (by decide)

/-- C2: one loop iteration of `receive` on an entry whose item exists for the
delivery and whose qty is non-negative succeeds and increments the item's
`receivedQty` by qty; the status is left unchanged when qty = 0 and forced to
`RECEIVED` when qty > 0, whatever it was before (including `APPROVED` or
`STORED`). -/
theorem receive_entry_updates_item (deliveryId : String) (now : Nat)
    (items : List (String × DeliveryItem)) (e : ReceiveItemInput)
    (item : DeliveryItem)
    (hnd : (items.map Prod.fst).Nodup)
    (hfind : findItem items e.itemId deliveryId = some item)
    (hqty : 0 ≤ e.qty) :
    (applyEntry deliveryId now items e).2 = none ∧
    ∃ item', findItem (applyEntry deliveryId now items e).1 e.itemId deliveryId =
        some item' ∧
      item'.receivedQty = item.receivedQty + e.qty ∧
      item'.status = (if 0 < e.qty then "RECEIVED" else item.status) := by
  obtain ⟨h1, h2⟩ := applyEntry_success deliveryId now items e item hnd hfind hqty
  exact ⟨h1, _, h2, rfl, rfl⟩

/-- C2 witness: receiving qty 3 on the already-`APPROVED` item `i1` succeeds
and resets its status to `RECEIVED`. -/
theorem receive_entry_updates_item_witness :
    (applyEntry "d1" 7 [("i1", wApproved)] ⟨"i1", 3⟩).2 = none ∧
    ∃ item', findItem (applyEntry "d1" 7 [("i1", wApproved)] ⟨"i1", 3⟩).1
        "i1" "d1" = some item' ∧
      item'.receivedQty = wApproved.receivedQty + 3 ∧
      item'.status = (if 0 < (3 : Int) then "RECEIVED" else wApproved.status) :=
  receive_entry_updates_item "d1" 7 [("i1", wApproved)] ⟨"i1", 3⟩ wApproved
    (by decide) (by decide) (by decide)

/-- C5: no delivery whose stored status is the legacy value `"RECEIVED"` ever
appears in a `list_deliveries` result, with or without a status filter. -/
theorem list_deliveries_excludes_legacy (s : State)
    (status_in : Option (List String)) (limit : Nat) (p : String × Delivery)
    (hp : p ∈ list_deliveries status_in limit s) :
    p.2.status ≠ "RECEIVED" := by
  have h1 : p ∈ sortByCreatedDesc (s.deliveries.filter
      (fun q => deliveryStatusFilter status_in q.2.status)) :=
    List.take_subset _ _ hp
  have h2 := mem_sortByCreatedDesc p _ h1
  have h3 := (List.mem_filter.mp h2).2
  intro heq
  rw [heq] at h3
  simp [deliveryStatusFilter] at h3

/-- C5 witness: the sample `PENDING` delivery is listed and is not legacy. -/
theorem list_deliveries_excludes_legacy_witness :
    ("d1", wDelivery) ∈ list_deliveries none 100 wState ∧
    ("d1", wDelivery).2.status ≠ "RECEIVED" :=
  ⟨by decide,
    list_deliveries_excludes_legacy wState none 100 ("d1", wDelivery) (by decide)⟩

/-- C6: creating a delivery stores `status="PENDING"` and `receivedQty=0`,
and `addItem` on an existing delivery stores `status="PENDING"` and
`receivedQty=0`, whatever the payload contains (the request schemas carry no
status or quantity field, and the handlers hard-code both values). -/
theorem creation_forces_pending_and_zero (s : State)
    (pl : DeliveryCreateRequest) (pli : DeliveryItemCreateRequest)
    (did newDid newIid : String) (now : Nat) :
    (findDoc s.deliveries newDid = none →
      (create_delivery pl newDid now s).2 = some
        { supplier := pl.supplier
          reference := pl.reference
          status := "PENDING"
          expectedDate := pl.expectedDate
          receivedQty := 0
          meta := pl.meta
          created_at := now
          updated_at := now }) ∧
    (∀ d0, findDoc s.deliveries did = some d0 → findDoc s.items newIid = none →
      (add_delivery_item did pli newIid now s).2 = Except.ok (some
        { delivery_id := did
          product_id := pli.product_id
          variant_id := pli.variant_id
          expectedQty := pli.expectedQty
          receivedQty := 0
          status := "PENDING"
          notes := pli.notes
          location := none
          created_at := now
          updated_at := now })) := by
  constructor
  · intro hfresh
    simp only [create_delivery]
    exact findDoc_append_fresh s.deliveries newDid _ hfresh
  · intro d0 hd hfresh
    simp only [add_delivery_item, hd]
    exact congrArg Except.ok (findDoc_append_fresh s.items newIid _ hfresh)

/-- C6 witness: creating a delivery and an item on the sample store yields
`PENDING` documents with zero received quantity. -/
theorem creation_forces_pending_and_zero_witness :
    (create_delivery ⟨none, none, none, []⟩ "d2" 5 wState).2 = some
      { supplier := none
        reference := none
        status := "PENDING"
        expectedDate := none
        receivedQty := 0
        meta := []
        created_at := 5
        updated_at := 5 } ∧
    (add_delivery_item "d1" ⟨none, none, 10, none⟩ "i2" 5 wState).2 =
      Except.ok (some
        { delivery_id := "d1"
          product_id := none
          variant_id := none
          expectedQty := 10
          receivedQty := 0
          status := "PENDING"
          notes := none
          location := none
          created_at := 5
          updated_at := 5 }) := by
  have h := creation_forces_pending_and_zero wState ⟨none, none, none, []⟩
    ⟨none, none, 10, none⟩ "d1" "d2" "i2" 5
  exact ⟨h.1 (by decide), h.2 wDelivery (by decide) (by decide)⟩

/-- C3: the receive batch is applied entry by entry in order, aborting on the
first failing entry: after a fully successful prefix, a bad entry whose item
does not exist for the delivery fails with the 400 "not found" error, and a
bad entry with a negative qty fails with the 400 "qty must be >= 0" error; in
both cases the whole call stops there, the remaining entries are never
examined, and the item updates made for the prefix stay persisted in the
returned state. -/
theorem receive_batch_sequential_abort (s : State) (did : String) (now : Nat)
    (pre : List ReceiveItemInput) (bad : ReceiveItemInput)
    (rest : List ReceiveItemInput) (d0 : Delivery)
    (items' : List (String × DeliveryItem))
    (hd : findDoc s.deliveries did = some d0)
    (hpre : receiveLoop did now s.items pre = (items', none)) :
    (findItem items' bad.itemId did = none →
      receive_items did now (pre ++ bad :: rest) s =
        ({ s with items := items' },
          Except.error
            ⟨400, "Item " ++ bad.itemId ++ " not found for this delivery"⟩)) ∧
    (∀ it, findItem items' bad.itemId did = some it → bad.qty < 0 →
      receive_items did now (pre ++ bad :: rest) s =
        ({ s with items := items' }, Except.error ⟨400, "qty must be >= 0"⟩)) := by
  have happ := receiveLoop_append did now pre (bad :: rest) s.items items' hpre
  constructor
  · intro hnf
    simp only [receive_items, hd, happ, receiveLoop, applyEntry, hnf]
  · intro it hfind hneg
    simp only [receive_items, hd, happ, receiveLoop, applyEntry, hfind,
      if_pos hneg]

/-- C3 witness: a batch whose first entry receives 4 of `i1` and whose second
entry names a nonexistent item aborts with the item-not-found error while the
first entry's update stays persisted. -/
theorem receive_batch_sequential_abort_witness :
    receive_items "d1" 9 [⟨"i1", 4⟩, ⟨"zz", 1⟩] wState =
      ({ wState with
          items := [("i1",
            { wItem with receivedQty := 4, status := "RECEIVED", updated_at := 9 })] },
        Except.error ⟨400, "Item " ++ "zz" ++ " not found for this delivery"⟩) := by
  have h := receive_batch_sequential_abort wState "d1" 9 [⟨"i1", 4⟩] ⟨"zz", 1⟩ []
    wDelivery
    [("i1", { wItem with receivedQty := 4, status := "RECEIVED", updated_at := 9 })]
    (by decide) (by decide)
  exact h.1 (by decide)

/-- C4: `send_to_quality` and `complete_delivery` set the delivery's status to
`IN_QUALITY_CHECK` resp. `COMPLETED` for any current delivery record, and
`approve_item` and `store_item` set the item's status to `APPROVED` resp.
`STORED` (the latter attaching the location built from the payload) for any
current item record; each of the four returns the 404 error when the id does
not resolve. -/
theorem unconditional_status_commands (s : State) (did itemId : String)
    (now : Nat) (notesArg : Option String) (sp : StorePayload) :
    (∀ d0, findDoc s.deliveries did = some d0 →
      (send_to_quality did now s).2 = Except.ok (some
        { d0 with status := "IN_QUALITY_CHECK", updated_at := now })) ∧
    (findDoc s.deliveries did = none →
      (send_to_quality did now s).2 = Except.error ⟨404, "Delivery not found"⟩) ∧
    (∀ d0, findDoc s.deliveries did = some d0 →
      (complete_delivery did now s).2 = Except.ok (some
        { d0 with status := "COMPLETED", updated_at := now })) ∧
    (findDoc s.deliveries did = none →
      (complete_delivery did now s).2 = Except.error ⟨404, "Delivery not found"⟩) ∧
    (∀ it0, findDoc s.items itemId = some it0 →
      (approve_item itemId ⟨notesArg⟩ now s).2 = Except.ok (some
        { it0 with status := "APPROVED", notes := notesArg, updated_at := now })) ∧
    (findDoc s.items itemId = none →
      (approve_item itemId ⟨notesArg⟩ now s).2 = Except.error ⟨404, "Item not found"⟩) ∧
    (∀ it0, findDoc s.items itemId = some it0 →
      (store_item itemId sp now s).2 = Except.ok (some
        { it0 with
          status := "STORED"
          location := some ⟨sp.rack, sp.slot, sp.zone, sp.level⟩
          updated_at := now })) ∧
    (findDoc s.items itemId = none →
      (store_item itemId sp now s).2 = Except.error ⟨404, "Item not found"⟩) := by
  refine ⟨?_, ?_, ?_, ?_, ?_, ?_, ?_, ?_⟩
  · intro d0 hd
    have hupd := findDoc_updateFirst_key
      (fun d => { d with status := "IN_QUALITY_CHECK", updated_at := now })
      did s.deliveries
    rw [hd] at hupd
    simp only [send_to_quality, hd]
    rw [hupd]
    rfl
  · intro h
    simp only [send_to_quality, h]
  · intro d0 hd
    have hupd := findDoc_updateFirst_key
      (fun d => { d with status := "COMPLETED", updated_at := now })
      did s.deliveries
    rw [hd] at hupd
    simp only [complete_delivery, hd]
    rw [hupd]
    rfl
  · intro h
    simp only [complete_delivery, h]
  · intro it0 hi
    have hupd := findDoc_updateFirst_key
      (fun it => { it with status := "APPROVED", notes := notesArg, updated_at := now })
      itemId s.items
    rw [hi] at hupd
    simp only [approve_item, hi]
    rw [hupd]
    rfl
  · intro h
    simp only [approve_item, h]
  · intro it0 hi
    have hupd := findDoc_updateFirst_key
      (fun it => { it with
        status := "STORED"
        location := some ⟨sp.rack, sp.slot, sp.zone, sp.level⟩
        updated_at := now })
      itemId s.items
    rw [hi] at hupd
    simp only [store_item, hi]
    rw [hupd]
    rfl
  · intro h
    simp only [store_item, h]

/-- C4 witness: the four commands applied to the sample store at resolving
ids, and at a nonexistent id. -/
theorem unconditional_status_commands_witness :
    (send_to_quality "d1" 2 wState).2 = Except.ok (some
      { wDelivery with status := "IN_QUALITY_CHECK", updated_at := 2 }) ∧
    (send_to_quality "nope" 2 wState).2 =
      Except.error ⟨404, "Delivery not found"⟩ ∧
    (complete_delivery "d1" 2 wState).2 = Except.ok (some
      { wDelivery with status := "COMPLETED", updated_at := 2 }) ∧
    (complete_delivery "nope" 2 wState).2 =
      Except.error ⟨404, "Delivery not found"⟩ ∧
    (approve_item "i1" ⟨some "ok"⟩ 2 wState).2 = Except.ok (some
      { wItem with status := "APPROVED", notes := some "ok", updated_at := 2 }) ∧
    (approve_item "nope" ⟨some "ok"⟩ 2 wState).2 =
      Except.error ⟨404, "Item not found"⟩ ∧
    (store_item "i1" ⟨"A1", "3", none, none⟩ 2 wState).2 = Except.ok (some
      { wItem with
        status := "STORED"
        location := some ⟨"A1", "3", none, none⟩
        updated_at := 2 }) ∧
    (store_item "nope" ⟨"A1", "3", none, none⟩ 2 wState).2 =
      Except.error ⟨404, "Item not found"⟩ := by
  have hf := unconditional_status_commands wState "d1" "i1" 2 (some "ok")
    ⟨"A1", "3", none, none⟩
  have hn := unconditional_status_commands wState "nope" "nope" 2 (some "ok")
    ⟨"A1", "3", none, none⟩
  exact ⟨hf.1 wDelivery (by decide), hn.2.1 (by decide),
    hf.2.2.1 wDelivery (by decide), hn.2.2.2.1 (by decide),
    hf.2.2.2.2.1 wItem (by decide), hn.2.2.2.2.2.1 (by decide),
    hf.2.2.2.2.2.2.1 wItem (by decide), hn.2.2.2.2.2.2.2 (by decide)⟩

/-- C7: a receive entry on an existing item with qty ≥ 0 succeeds and adds
qty to the item's `receivedQty` even when the result exceeds `expectedQty`:
no cap, rejection or warning is applied to over-receipt. -/
theorem over_receipt_permitted (s : State) (did : String) (now : Nat)
    (e : ReceiveItemInput) (d0 : Delivery) (item : DeliveryItem)
    (hnd : (s.items.map Prod.fst).Nodup)
    (hd : findDoc s.deliveries did = some d0)
    (hfind : findItem s.items e.itemId did = some item)
    (hqty : 0 ≤ e.qty)
    (_hover : item.expectedQty < item.receivedQty + e.qty) :
    (∃ res, (receive_items did now [e] s).2 = Except.ok res) ∧
    findItem (receive_items did now [e] s).1.items e.itemId did =
      some { item with
        receivedQty := item.receivedQty + e.qty
        status := if 0 < e.qty then "RECEIVED" else item.status
        updated_at := now } := by
  obtain ⟨h1, h2⟩ := applyEntry_success did now s.items e item hnd hfind hqty
  cases happ : applyEntry did now s.items e with
  | mk items₁ oerr =>
    rw [happ] at h1 h2
    simp only at h1 h2
    subst h1
    simp only [receive_items, hd, receiveLoop, happ]
    exact ⟨⟨_, rfl⟩, h2⟩

/-- C7 witness: receiving 20 more units of the approved item `i1` (expected
10, already received 2) succeeds and stores `receivedQty = 22`. -/
theorem over_receipt_permitted_witness :
    (∃ res, (receive_items "d1" 6 [⟨"i1", 20⟩] wStateApproved).2 =
      Except.ok res) ∧
    findItem (receive_items "d1" 6 [⟨"i1", 20⟩] wStateApproved).1.items
        "i1" "d1" =
      some { wApproved with
        receivedQty := wApproved.receivedQty + 20
        status := if 0 < (20 : Int) then "RECEIVED" else wApproved.status
        updated_at := 6 } :=
  over_receipt_permitted wStateApproved "d1" 6 ⟨"i1", 20⟩ wDelivery wApproved
    (by decide) (by decide) (by decide) (by decide) (by decide)

/-- C8: a successful receive call never changes the parent delivery's status;
nor its supplier, reference, expected date, meta or creation time — only
`receivedQty` and `updated_at` may change. -/
theorem receive_preserves_delivery_frame (s : State) (did : String) (now : Nat)
    (entries : List ReceiveItemInput) (d0 : Delivery) (res : Option Delivery)
    (hd : findDoc s.deliveries did = some d0)
    (hok : (receive_items did now entries s).2 = Except.ok res) :
    ∃ d', res = some d' ∧
      findDoc (receive_items did now entries s).1.deliveries did = some d' ∧
      d'.status = d0.status ∧ d'.supplier = d0.supplier ∧
      d'.reference = d0.reference ∧ d'.expectedDate = d0.expectedDate ∧
      d'.meta = d0.meta ∧ d'.created_at = d0.created_at := by
  cases hlp : receiveLoop did now s.items entries with
  | mk items' oerr =>
    cases oerr with
    | some err => simp [receive_items, hd, hlp] at hok
    | none =>
      have hupd := findDoc_updateFirst_key
        (fun d => { d with receivedQty := itemSum items' did, updated_at := now })
        did s.deliveries
      rw [hd] at hupd
      simp only [receive_items, hd, hlp] at hok ⊢
      have h := Except.ok.inj hok
      refine ⟨{ d0 with receivedQty := itemSum items' did, updated_at := now },
        ?_, ?_, rfl, rfl, rfl, rfl, rfl, rfl⟩
      · rw [← h, hupd]
        rfl
      · rw [hupd]
        rfl

/-- C8 witness: receiving 5 of `i1` leaves the sample delivery `PENDING`. -/
theorem receive_preserves_delivery_frame_witness :
    ∃ d', some { wDelivery with receivedQty := 5, updated_at := 3 } = some d' ∧
      findDoc (receive_items "d1" 3 [⟨"i1", 5⟩] wState).1.deliveries "d1" =
        some d' ∧
      d'.status = wDelivery.status ∧ d'.supplier = wDelivery.supplier ∧
      d'.reference = wDelivery.reference ∧
      d'.expectedDate = wDelivery.expectedDate ∧
      d'.meta = wDelivery.meta ∧ d'.created_at = wDelivery.created_at :=
  receive_preserves_delivery_frame wState "d1" 3 [⟨"i1", 5⟩] wDelivery
    (some { wDelivery with receivedQty := 5, updated_at := 3 })
    (by decide) (by decide)

/-- C9: when the receive loop aborts on a failing entry, the delivery
collection is returned untouched — the re-aggregation step is skipped, the
delivery keeps its pre-call `receivedQty` — while the item updates of the
successful prefix are kept; concretely, there is a state and batch for which
the failed call leaves the delivery's `receivedQty` different from the sum of
its items' `receivedQty`. -/
theorem failed_receive_skips_reaggregation :
    (∀ (s : State) (did : String) (now : Nat) (entries : List ReceiveItemInput)
        (d0 : Delivery) (items' : List (String × DeliveryItem))
        (err : HTTPError),
      findDoc s.deliveries did = some d0 →
      receiveLoop did now s.items entries = (items', some err) →
      receive_items did now entries s =
        ({ deliveries := s.deliveries, items := items' }, Except.error err)) ∧
    (∃ (s : State) (did : String) (entries : List ReceiveItemInput)
        (err : HTTPError),
      (receive_items did 0 entries s).2 = Except.error err ∧
      ∃ d : Delivery,
        findDoc (receive_items did 0 entries s).1.deliveries did = some d ∧
        d.receivedQty ≠ itemSum (receive_items did 0 entries s).1.items did) := by
  constructor
  · intro s did now entries d0 items' err hd hlp
    simp only [receive_items, hd, hlp]
  · exact ⟨wState, "d1", [⟨"i1", 5⟩, ⟨"zz", 1⟩],
      ⟨400, "Item " ++ "zz" ++ " not found for this delivery"⟩, by decide,
      wDelivery, by decide, by decide⟩

/-- C9 witness: a batch failing on its only entry leaves both collections as
they were and surfaces the loop's error. -/
theorem failed_receive_skips_reaggregation_witness :
    receive_items "d1" 9 [⟨"zz", 1⟩] wState =
      ({ deliveries := wState.deliveries, items := wState.items },
        Except.error ⟨400, "Item " ++ "zz" ++ " not found for this delivery"⟩) :=
  failed_receive_skips_reaggregation.1 wState "d1" 9 [⟨"zz", 1⟩] wDelivery
    wState.items ⟨400, "Item " ++ "zz" ++ " not found for this delivery"⟩
    (by decide) (by decide)

/-- C10: `approve` always stores the supplied notes value over the item's
previous notes; in particular, omitting the argument (the payload default
`None`) erases existing notes rather than preserving them. -/
theorem approve_overwrites_notes (s : State) (itemId : String)
    (notesArg : Option String) (now : Nat) (it0 : DeliveryItem)
    (hfind : findDoc s.items itemId = some it0) :
    (approve_item itemId ⟨notesArg⟩ now s).2 = Except.ok (some
      { it0 with status := "APPROVED", notes := notesArg, updated_at := now }) ∧
    findDoc (approve_item itemId ⟨notesArg⟩ now s).1.items itemId = some
      { it0 with status := "APPROVED", notes := notesArg, updated_at := now } := by
  have hupd := findDoc_updateFirst_key
    (fun it => { it with status := "APPROVED", notes := notesArg, updated_at := now })
    itemId s.items
  rw [hfind] at hupd
  simp only [approve_item, hfind]
  constructor
  · rw [hupd]
    rfl
  · rw [hupd]
    rfl

/-- C10 witness: approving `i1` (whose notes are `some "looks fine"`) with no
notes argument replaces them with `none`. -/
theorem approve_overwrites_notes_witness :
    (approve_item "i1" ⟨none⟩ 4 wStateApproved).2 = Except.ok (some
      { wApproved with status := "APPROVED", notes := none, updated_at := 4 }) ∧
    findDoc (approve_item "i1" ⟨none⟩ 4 wStateApproved).1.items "i1" = some
      { wApproved with status := "APPROVED", notes := none, updated_at := 4 } :=
  approve_overwrites_notes wStateApproved "i1" none 4 wApproved (by decide)

end Noven
